import Mathlib

/-!
Shallow embedding of the native backend of the better-shot screenshot utility
(`src-tauri/src/commands.rs` and `src-tauri/src/clipboard.rs`).

The Rust code is effectful glue: it spawns OS subprocesses, inspects their
exit status and stderr, checks the filesystem, and serializes captures with a
process-wide `std::sync::Mutex`.  The embedding makes every external effect an
explicit input: an environment record carries the outcome of each subprocess
run, the filesystem facts the code queries, and the state of the capture lock.
Each Rust function becomes a pure Lean function from its arguments and the
environment to an explicit trace (result value, whether the main capture
subprocess was spawned, final file state at the destination path).

Rust `Result<T, String>` is embedded as `Except String T`.
-/

namespace BetterShot

/-- The observable outcome of a finished subprocess, as the Rust code reads it:
`status.success()`, captured stdout and captured stderr
(`String::from_utf8_lossy` applied to the byte buffers). -/
structure ProcOutput where
  success : Bool
  stdout : String
  stderr : String
deriving DecidableEq, Repr

/-- Substring test, embedding Rust `str::contains(pat)`: true iff `pat`
occurs contiguously in `s`. -/
def strContains (s pat : String) : Bool :=
  s.toList.tails.any (fun t => pat.toList.isPrefixOf t)

/-- The stderr / error-text scan shared by the permission gate and the capture
error paths in `commands.rs`: does the text contain `"permission"`,
`"denied"` or `"not authorized"`? -/
def containsPermissionDenial (s : String) : Bool :=
  strContains s "permission" || strContains s "denied" || strContains s "not authorized"

/-- State of the process-wide `SCREENCAPTURE_LOCK : Mutex<()>` at the moment a
capture function calls `.lock()`: free, currently held by another task of the
same process, or poisoned (a holder panicked). -/
inductive LockState where
  | unlocked : LockState
  | lockedByOther : LockState
  | poisoned : String → LockState
deriving DecidableEq, Repr

/-- What `.lock()` does, per the semantics of `std::sync::Mutex::lock`:
if the mutex is free it is acquired; if another thread holds it the caller
BLOCKS until the holder releases it (`lock` is not `try_lock` — contention is
never surfaced as an `Err`); only a poisoned mutex yields `Err(PoisonError)`,
which the Rust code maps to a "Failed to acquire lock" message. -/
inductive LockAcquire where
  | acquired : LockAcquire
  | blocks : LockAcquire
  | poisonErr : String → LockAcquire
deriving DecidableEq, Repr

def mutexLock : LockState → LockAcquire
  | .unlocked => .acquired
  | .lockedByOther => .blocks
  | .poisoned m => .poisonErr m

deriving instance DecidableEq for Except

/-- Outcome of calling one of the embedded capture entry points: either the
calling thread blocks on the capture mutex (no value is returned while the
other capture is in flight), or the call returns a `Result`. -/
inductive Outcome (α : Type) where
  | blocked : Outcome α
  | done : Except String α → Outcome α
deriving DecidableEq, Repr

/-- `is_screencapture_running` (macOS): runs `pgrep -x screencapture` via
`Command::output()` and reports `o.status.success()`; any spawn error counts
as "not running".  The environment supplies the `output()` result. -/
def is_screencapture_running (pgrepRun : Except String ProcOutput) : Bool :=
  match pgrepRun with
  | .ok o => o.success
  | .error _ => false

/-- `is_screencapture_running` (Windows stub): always `false`. -/
def is_screencapture_running_windows : Bool := false

/-- `check_and_activate_permission` (macOS), result value only: run the
zero-duration probe `screencapture -x -T 0 <tmp>` via `output()`; on `Ok`,
scan the probe stderr for denial substrings; on spawn `Err(e)`, scan
`e.to_string()`.  A match yields the fixed error string, otherwise `Ok(())`. -/
def check_and_activate_permission (probeRun : Except String ProcOutput) :
    Except String Unit :=
  match probeRun with
  | .ok o =>
      if containsPermissionDenial o.stderr then
        .error "Screen Recording permission not granted"
      else
        .ok ()
  | .error e =>
      if containsPermissionDenial e then
        .error "Screen Recording permission not granted"
      else
        .ok ()

/-- Whether the temporary probe file still exists after
`check_and_activate_permission` returns.  In the `Ok(o)` branch the code runs
`remove_file` on the probe path before any check, so the file is gone; in the
spawn-`Err` branch nothing is removed and the file is in whatever state the
failed spawn left it (`probeFileCreated`). -/
def probeFileAfterGate (probeRun : Except String ProcOutput)
    (probeFileCreated : Bool) : Bool :=
  match probeRun with
  | .ok _ => false
  | .error _ => probeFileCreated

/-- Modelled from the spec: `generate_filename` lives in `utils.rs`, which is
not among the provided source files.  Per the spec, each capture "constructs a
destination filename (timestamped, with a fixed prefix and `.png` extension)":
the model produces `<pre>_<timestamp>.<ext>` from the given name stem,
extension and the current timestamp, and never fails. -/
def generate_filename (pre ext : String) (timestamp : Nat) : Except String String :=
  .ok (pre ++ "_" ++ toString timestamp ++ "." ++ ext)

/-- The destination filename every capture variant passes to
`generate_filename("screenshot", "png")`. -/
def screenshotFilename (timestamp : Nat) : String :=
  "screenshot" ++ "_" ++ toString timestamp ++ "." ++ "png"

theorem generate_filename_screenshot (timestamp : Nat) :
    generate_filename "screenshot" "png" timestamp = .ok (screenshotFilename timestamp) :=
  rfl

/-- `PathBuf::from(save_dir).join(filename)`, embedded on string paths. -/
def pathJoin (dir file : String) : String := dir ++ "/" ++ file

/-- Environment of one macOS capture call: the state of the capture mutex and
the outcome of every external effect the function can perform, in program
order.  `spawnRes` / `waitRes` feed the interactive and window variants
(`spawn()` then `wait_with_output()`); `statusRes` feeds the fullscreen
variant (`status()`, whose `Ok` carries only `status.success()`).
`destFileInitial` is whether a file already sits at the destination path when
the call starts; `destFileAfterRun` is whether a file sits there right after
the capture subprocess finishes. -/
structure MacEnv where
  lockState : LockState
  pgrepRun : Except String ProcOutput
  probeRun : Except String ProcOutput
  spawnRes : Except String Unit
  waitRes : Except String ProcOutput
  statusRes : Except String Bool
  destFileInitial : Bool
  destFileAfterRun : Bool
  timestamp : Nat
deriving DecidableEq, Repr

/-- Trace of one macOS capture call: its outcome, whether the main
`screencapture` command was spawned, and whether a file exists at the
destination path when the call returns. -/
structure MacTrace where
  outcome : Outcome String
  spawnAttempted : Bool
  fileAtDest : Bool
deriving DecidableEq, Repr

/-- The fixed error message built by the `map_err` around
`check_and_activate_permission` in all three macOS capture variants. -/
def permissionGateMsg (e : String) : String :=
  "Permission check failed: " ++ e ++ ". Please ensure Screen Recording permission is granted in System Settings > Privacy & Security > Screen Recording."

/-- The fixed error message returned when a capture subprocess exits non-zero
with denial-indicating stderr. -/
def permissionRequiredMsg : String :=
  "Screen Recording permission required. Please grant permission in System Settings > Privacy & Security > Screen Recording and restart the app."

/-- `native_capture_interactive_macos`: lock, liveness check, permission gate,
destination path, `screencapture -i -x <path>` via `spawn` +
`wait_with_output`; on non-zero exit remove any file at the destination and
report either the permission message (if stderr matches) or cancellation; on
zero exit succeed only if the destination file exists. -/
def native_capture_interactive_macos (save_dir : String) (env : MacEnv) : MacTrace :=
  match mutexLock env.lockState with
  | .blocks => ⟨.blocked, false, env.destFileInitial⟩
  | .poisonErr m =>
      ⟨.done (.error ("Failed to acquire lock: " ++ m)), false, env.destFileInitial⟩
  | .acquired =>
    if is_screencapture_running env.pgrepRun then
      ⟨.done (.error "Another screenshot capture is already in progress"), false,
        env.destFileInitial⟩
    else
      match check_and_activate_permission env.probeRun with
      | .error e => ⟨.done (.error (permissionGateMsg e)), false, env.destFileInitial⟩
      | .ok () =>
        match generate_filename "screenshot" "png" env.timestamp with
        | .error e => ⟨.done (.error e), false, env.destFileInitial⟩
        | .ok filename =>
          let path_str := pathJoin save_dir filename
          match env.spawnRes with
          | .error e =>
              ⟨.done (.error ("Failed to run screencapture: " ++ e)), true,
                env.destFileInitial⟩
          | .ok () =>
            match env.waitRes with
            | .error e =>
                ⟨.done (.error ("Failed to wait for screencapture: " ++ e)), true,
                  env.destFileAfterRun⟩
            | .ok out =>
              if !out.success then
                if containsPermissionDenial out.stderr then
                  ⟨.done (.error permissionRequiredMsg), true, false⟩
                else
                  ⟨.done (.error "Screenshot was cancelled or failed"), true, false⟩
              else
                if env.destFileAfterRun then
                  ⟨.done (.ok path_str), true, true⟩
                else
                  ⟨.done (.error "Screenshot was cancelled or failed"), true, false⟩

/-- `native_capture_window_macos`: identical control flow to the interactive
variant, with `screencapture -w -x <path>`. -/
def native_capture_window_macos (save_dir : String) (env : MacEnv) : MacTrace :=
  match mutexLock env.lockState with
  | .blocks => ⟨.blocked, false, env.destFileInitial⟩
  | .poisonErr m =>
      ⟨.done (.error ("Failed to acquire lock: " ++ m)), false, env.destFileInitial⟩
  | .acquired =>
    if is_screencapture_running env.pgrepRun then
      ⟨.done (.error "Another screenshot capture is already in progress"), false,
        env.destFileInitial⟩
    else
      match check_and_activate_permission env.probeRun with
      | .error e => ⟨.done (.error (permissionGateMsg e)), false, env.destFileInitial⟩
      | .ok () =>
        match generate_filename "screenshot" "png" env.timestamp with
        | .error e => ⟨.done (.error e), false, env.destFileInitial⟩
        | .ok filename =>
          let path_str := pathJoin save_dir filename
          match env.spawnRes with
          | .error e =>
              ⟨.done (.error ("Failed to run screencapture: " ++ e)), true,
                env.destFileInitial⟩
          | .ok () =>
            match env.waitRes with
            | .error e =>
                ⟨.done (.error ("Failed to wait for screencapture: " ++ e)), true,
                  env.destFileAfterRun⟩
            | .ok out =>
              if !out.success then
                if containsPermissionDenial out.stderr then
                  ⟨.done (.error permissionRequiredMsg), true, false⟩
                else
                  ⟨.done (.error "Screenshot was cancelled or failed"), true, false⟩
              else
                if env.destFileAfterRun then
                  ⟨.done (.ok path_str), true, true⟩
                else
                  ⟨.done (.error "Screenshot was cancelled or failed"), true, false⟩

/-- `native_capture_fullscreen_macos`: lock, liveness check, permission gate,
destination path, `screencapture -x <path>` via `status()` (stderr is not
captured); on non-zero exit return "Screenshot failed" WITHOUT removing the
destination file; on zero exit succeed only if the destination file exists. -/
def native_capture_fullscreen_macos (save_dir : String) (env : MacEnv) : MacTrace :=
  match mutexLock env.lockState with
  | .blocks => ⟨.blocked, false, env.destFileInitial⟩
  | .poisonErr m =>
      ⟨.done (.error ("Failed to acquire lock: " ++ m)), false, env.destFileInitial⟩
  | .acquired =>
    if is_screencapture_running env.pgrepRun then
      ⟨.done (.error "Another screenshot capture is already in progress"), false,
        env.destFileInitial⟩
    else
      match check_and_activate_permission env.probeRun with
      | .error e => ⟨.done (.error (permissionGateMsg e)), false, env.destFileInitial⟩
      | .ok () =>
        match generate_filename "screenshot" "png" env.timestamp with
        | .error e => ⟨.done (.error e), false, env.destFileInitial⟩
        | .ok filename =>
          let path_str := pathJoin save_dir filename
          match env.statusRes with
          | .error e =>
              ⟨.done (.error ("Failed to run screencapture: " ++ e)), true,
                env.destFileInitial⟩
          | .ok st =>
            if !st then
              ⟨.done (.error "Screenshot failed"), true, env.destFileAfterRun⟩
            else
              if env.destFileAfterRun then
                ⟨.done (.ok path_str), true, true⟩
              else
                ⟨.done (.error "Screenshot failed"), true, false⟩

/-- An `xcap::Monitor`, abstracted to an identifier: the code only ever picks
`monitors[0]` and calls `capture_image()` on it. -/
structure Monitor where
  id : Nat
deriving DecidableEq, Repr

/-- Environment of one Windows capture call: mutex state, the result of
`Monitor::all()`, the result of `capture_image()` on the chosen monitor, the
result of `image.save(path)`, and the timestamp used for the filename. -/
structure WinEnv where
  lockState : LockState
  monitorsRes : Except String (List Monitor)
  captureRes : Except String Unit
  saveRes : Except String Unit
  timestamp : Nat
deriving DecidableEq, Repr

/-- Trace of one Windows capture call: its outcome and which monitor (if any)
had `capture_image()` invoked on it. -/
structure WinTrace where
  outcome : Outcome String
  captured : Option Monitor
deriving DecidableEq, Repr

/-- `native_capture_interactive_windows`: lock, `Monitor::all()`, empty-list
check, `capture_image()` on `monitors[0]`, filename, `image.save`.  No
interactive selection happens; no liveness or permission check is made. -/
def native_capture_interactive_windows (save_dir : String) (env : WinEnv) : WinTrace :=
  match mutexLock env.lockState with
  | .blocks => ⟨.blocked, none⟩
  | .poisonErr m => ⟨.done (.error ("Failed to acquire lock: " ++ m)), none⟩
  | .acquired =>
    match env.monitorsRes with
    | .error e => ⟨.done (.error ("Failed to get monitors: " ++ e)), none⟩
    | .ok monitors =>
      match monitors with
      | [] => ⟨.done (.error "No monitors available"), none⟩
      | m0 :: _ =>
        match env.captureRes with
        | .error e => ⟨.done (.error ("Failed to capture screen: " ++ e)), some m0⟩
        | .ok () =>
          match generate_filename "screenshot" "png" env.timestamp with
          | .error e => ⟨.done (.error e), some m0⟩
          | .ok filename =>
            let path_str := pathJoin save_dir filename
            match env.saveRes with
            | .error e => ⟨.done (.error ("Failed to save screenshot: " ++ e)), some m0⟩
            | .ok () => ⟨.done (.ok path_str), some m0⟩

/-- `native_capture_fullscreen_windows`: same body as the interactive Windows
variant (lock, `Monitor::all()`, empty check, `capture_image()` on
`monitors[0]`, filename, `image.save`). -/
def native_capture_fullscreen_windows (save_dir : String) (env : WinEnv) : WinTrace :=
  match mutexLock env.lockState with
  | .blocks => ⟨.blocked, none⟩
  | .poisonErr m => ⟨.done (.error ("Failed to acquire lock: " ++ m)), none⟩
  | .acquired =>
    match env.monitorsRes with
    | .error e => ⟨.done (.error ("Failed to get monitors: " ++ e)), none⟩
    | .ok monitors =>
      match monitors with
      | [] => ⟨.done (.error "No monitors available"), none⟩
      | m0 :: _ =>
        match env.captureRes with
        | .error e => ⟨.done (.error ("Failed to capture screen: " ++ e)), some m0⟩
        | .ok () =>
          match generate_filename "screenshot" "png" env.timestamp with
          | .error e => ⟨.done (.error e), some m0⟩
          | .ok filename =>
            let path_str := pathJoin save_dir filename
            match env.saveRes with
            | .error e => ⟨.done (.error ("Failed to save screenshot: " ++ e)), some m0⟩
            | .ok () => ⟨.done (.ok path_str), some m0⟩

/-- `native_capture_window_windows`: deliberately falls back to the fullscreen
Windows capture. -/
def native_capture_window_windows (save_dir : String) (env : WinEnv) : WinTrace :=
  native_capture_fullscreen_windows save_dir env

/-- An OS path as the Rust code handles it: an identifying string plus whether
`Path::to_str` succeeds on it (i.e. whether it is valid UTF-8). -/
structure MPath where
  s : String
  utf8 : Bool
deriving DecidableEq, Repr

/-- Facts about paths in the surrounding OS world, used to state what
"canonical", "existing" and "absolute" mean for a returned path. -/
structure World where
  canonical : String → Bool
  pathExists : String → Bool
  absolute : String → Bool

/-- `get_temp_directory`: take `std::env::temp_dir()`, try to
`canonicalize()` it, and on canonicalization failure fall back to the
uncanonicalized directory (`unwrap_or(temp_dir)`); then convert to a string,
failing only when the chosen path is not valid UTF-8. -/
def get_temp_directory (tempDir : MPath) (canonRes : Option MPath) :
    Except String String :=
  let canonical := canonRes.getD tempDir
  if canonical.utf8 then
    .ok canonical.s
  else
    .error "Failed to convert temp directory path to string"

/-- Environment of `copy_image_to_clipboard` on Windows: does the path exist,
is it a regular file, the result of `canonicalize()` (the resolved path
string), and the result of running the PowerShell script. -/
structure WinClipEnv where
  exists_ : Bool
  isFile : Bool
  canonRes : Except String String
  psRun : Except String ProcOutput
deriving DecidableEq, Repr

/-- Trace of one clipboard-copy call: its result and, when the platform
script was invoked, the path that was interpolated into the script. -/
structure ClipTrace where
  result : Except String Unit
  invokedWith : Option String
deriving DecidableEq, Repr

/-- `copy_image_to_clipboard_windows`: validate existence and regular-file
status, canonicalize, then run the PowerShell clipboard script on the
canonical path.  The script is not invoked on any validation failure. -/
def copy_image_to_clipboard_windows (image_path : String) (env : WinClipEnv) :
    ClipTrace :=
  if !env.exists_ then
    ⟨.error ("File not found: " ++ image_path), none⟩
  else if !env.isFile then
    ⟨.error ("Path is not a file: " ++ image_path), none⟩
  else
    match env.canonRes with
    | .error e => ⟨.error ("Failed to resolve path: " ++ e), none⟩
    | .ok canonical_path =>
      match env.psRun with
      | .error e =>
          ⟨.error ("Failed to execute PowerShell: " ++ e), some canonical_path⟩
      | .ok o =>
        if !o.success then
          ⟨.error ("Failed to copy image to clipboard: " ++ o.stderr), some canonical_path⟩
        else
          ⟨.ok (), some canonical_path⟩

/-- `copy_image_to_clipboard_macos`: no validation of the path — the
osascript clipboard script is always invoked on the raw path, and any failure
(nonexistent file included) surfaces from the exit status of the tool and
stderr. -/
def copy_image_to_clipboard_macos (image_path : String)
    (osascriptRun : Except String ProcOutput) : ClipTrace :=
  match osascriptRun with
  | .error e => ⟨.error ("Failed to execute osascript: " ++ e), some image_path⟩
  | .ok o =>
    if !o.success then
      ⟨.error ("Failed to copy image to clipboard: " ++ o.stderr), some image_path⟩
    else
      ⟨.ok (), some image_path⟩

/-- Environment of `capture_once`.  Modelled from the spec:
`capture_primary_monitor` (`screenshot.rs`) and `copy_screenshot_to_dir`
(`image.rs`) are not among the provided source files; per the spec each
returns a saved file path or an error, so the environment carries their
results directly (the `ok` value of `copyDirRes` is the path of the screenshot
file written into the save directory). -/
structure CaptureOnceEnv where
  primaryRes : Except String String
  copyDirRes : Except String String
deriving DecidableEq, Repr

/-- `capture_once`: capture the primary monitor, copy the screenshot into the
save directory, then, when `copy_to_clip` is set, copy the saved file to the
clipboard, propagating a clipboard error with `?`.  The second component is
the path at which the saved screenshot file sits on disk when the call
returns — the function never removes it. -/
def capture_once (copy_to_clip : Bool) (clip : String → Except String Unit)
    (env : CaptureOnceEnv) : Except String String × Option String :=
  match env.primaryRes with
  | .error e => (.error e, none)
  | .ok _ =>
    match env.copyDirRes with
    | .error e => (.error e, none)
    | .ok saved_path =>
      if copy_to_clip then
        match clip saved_path with
        | .error e => (.error e, some saved_path)
        | .ok () => (.ok saved_path, some saved_path)
      else
        (.ok saved_path, some saved_path)

/-- The text the permission gate scans for denial substrings: the captured
probe stderr when `output()` returned `Ok`, the display text of the spawn error
otherwise. -/
def probeScanText : Except String ProcOutput → String
  | .ok o => o.stderr
  | .error m => m

/-- A fully successful macOS capture environment: lock free, `pgrep` finds no
running `screencapture`, clean probe, capture subprocess succeeds and leaves
the destination file in place. -/
def macEnvOk : MacEnv where
  lockState := .unlocked
  pgrepRun := .ok ⟨false, "", ""⟩
  probeRun := .ok ⟨true, "", ""⟩
  spawnRes := .ok ()
  waitRes := .ok ⟨true, "", ""⟩
  statusRes := .ok true
  destFileInitial := false
  destFileAfterRun := true
  timestamp := 1700000000

/-- C4: the macOS permission gate returns the "Screen Recording permission
not granted" error exactly when the scanned text (probe stderr, or spawn
error text) contains one of the substrings "permission", "denied",
"not authorized"; otherwise it returns `Ok(())`; and no probe file remains
afterwards (the `Ok` branch deletes it before checking, and a failed spawn
never created it — the hypothesis records that environment fact). -/
theorem C4_permission_gate (probeRun : Except String ProcOutput)
    (probeFileCreated : Bool)
    (hspawn : ∀ m, probeRun = .error m → probeFileCreated = false) :
    (check_and_activate_permission probeRun =
        .error "Screen Recording permission not granted" ↔
      containsPermissionDenial (probeScanText probeRun) = true) ∧
    (check_and_activate_permission probeRun = .ok () ↔
      containsPermissionDenial (probeScanText probeRun) = false) ∧
    probeFileAfterGate probeRun probeFileCreated = false := by
  cases probeRun with
  | ok o =>
      rcases Bool.eq_false_or_eq_true (containsPermissionDenial o.stderr) with h | h <;>
        simp [check_and_activate_permission, probeScanText, probeFileAfterGate, h]
  | error m =>
      have hc := hspawn m rfl
      rcases Bool.eq_false_or_eq_true (containsPermissionDenial m) with h | h <;>
        simp [check_and_activate_permission, probeScanText, probeFileAfterGate, h, hc]

/-- C4 witness: the gate at a concrete denied probe (stderr mentioning
"not authorized") errors, and at a clean probe succeeds; instantiated through
`C4_permission_gate`. -/
theorem C4_permission_gate_witness :
    (check_and_activate_permission (.ok ⟨false, "", "could not create image from display: not authorized"⟩) =
        .error "Screen Recording permission not granted" ↔
      containsPermissionDenial (probeScanText (.ok ⟨false, "", "could not create image from display: not authorized"⟩)) = true) ∧
    (check_and_activate_permission (.ok ⟨false, "", "could not create image from display: not authorized"⟩) = .ok () ↔
      containsPermissionDenial (probeScanText (.ok ⟨false, "", "could not create image from display: not authorized"⟩)) = false) ∧
    probeFileAfterGate (.ok ⟨false, "", "could not create image from display: not authorized"⟩) true = false :=
  C4_permission_gate (.ok ⟨false, "", "could not create image from display: not authorized"⟩) true
    (fun m h => by cases h)

/-- C2 counterexample: when `canonicalize()` fails (for instance the
configured temp directory has been removed), `get_temp_directory` falls back
to the raw, unresolved `temp_dir()` value and still returns it as `Ok` —
here, in a world where "/tmp" is neither canonical nor existing (consistent
with canonicalization having failed on it), the function returns
`Ok "/tmp"`, contradicting "always returns an absolute, existing, canonical
path". -/
theorem C2_counterexample :
    get_temp_directory ⟨"/tmp", true⟩ none = .ok "/tmp" ∧
    (World.mk (fun _ => false) (fun _ => false) (fun _ => false)).canonical "/tmp" = false ∧
    (World.mk (fun _ => false) (fun _ => false) (fun _ => false)).pathExists "/tmp" = false :=
  ⟨rfl, rfl, rfl⟩

/-- C2 amended: `get_temp_directory` returns the canonicalized (hence
absolute, existing, symlink-resolved) temp path when canonicalization
succeeds; when canonicalization fails it falls back to the raw `temp_dir()`
value; and it returns an error exactly when the chosen path cannot be
converted to a UTF-8 string, with the fixed conversion-failure message. -/
theorem C2_amended (w : World) (tempDir : MPath) (canonRes : Option MPath)
    (hsound : ∀ p, canonRes = some p →
      w.canonical p.s = true ∧ w.pathExists p.s = true ∧ w.absolute p.s = true) :
    (∀ p s, canonRes = some p → get_temp_directory tempDir canonRes = .ok s →
      w.canonical s = true ∧ w.pathExists s = true ∧ w.absolute s = true) ∧
    (canonRes = none → ∀ s, get_temp_directory tempDir canonRes = .ok s →
      s = tempDir.s) ∧
    (∀ e, get_temp_directory tempDir canonRes = .error e ↔
      ((canonRes.getD tempDir).utf8 = false ∧
        e = "Failed to convert temp directory path to string")) := by
  have key : ∀ (td : MPath) (cr : Option MPath),
      get_temp_directory td cr =
        if (cr.getD td).utf8 then .ok (cr.getD td).s
        else .error "Failed to convert temp directory path to string" :=
    fun _ _ => rfl
  refine ⟨?_, ?_, ?_⟩
  · intro p s hp hs
    subst hp
    rw [key] at hs
    rcases Bool.eq_false_or_eq_true p.utf8 with hu | hu <;> simp [hu] at hs
    cases hs
    exact hsound p rfl
  · intro hn s hs
    subst hn
    rw [key] at hs
    rcases Bool.eq_false_or_eq_true tempDir.utf8 with hu | hu <;> simp [hu] at hs
    exact hs.symm
  · intro e
    rw [key]
    rcases Bool.eq_false_or_eq_true ((canonRes.getD tempDir).utf8) with hu | hu <;>
      simp [hu, eq_comm]

/-- C2 witness: `C2_amended` instantiated at a concrete world and a
successful canonicalization of "/tmp" to "/private/tmp". -/
theorem C2_amended_witness :
    (World.mk (fun p => p == "/private/tmp") (fun p => p == "/private/tmp")
        (fun p => p == "/private/tmp")).canonical "/private/tmp" = true ∧
    get_temp_directory ⟨"/tmp", true⟩ (some ⟨"/private/tmp", true⟩) = .ok "/private/tmp" :=
  ⟨((C2_amended
      (World.mk (fun p => p == "/private/tmp") (fun p => p == "/private/tmp")
        (fun p => p == "/private/tmp"))
      ⟨"/tmp", true⟩ (some ⟨"/private/tmp", true⟩)
      (fun p hp => by cases hp; exact ⟨rfl, rfl, rfl⟩)).1
      ⟨"/private/tmp", true⟩ "/private/tmp" rfl rfl).1, rfl⟩

/-- A fully successful Windows capture environment: lock free, one monitor,
capture and save both succeed. -/
def winEnvOk : WinEnv where
  lockState := .unlocked
  monitorsRes := .ok [⟨0⟩]
  captureRes := .ok ()
  saveRes := .ok ()
  timestamp := 42

/-- C5: on Windows the window-capture entry point is the fullscreen capture —
the two functions agree on every save directory and environment — and on the
happy path it captures the first (primary) monitor of the monitor list and
returns the timestamped destination path inside the save directory. -/
theorem C5_window_falls_back_to_fullscreen (save_dir : String) (env : WinEnv) :
    native_capture_window_windows save_dir env =
      native_capture_fullscreen_windows save_dir env ∧
    (∀ m0 rest, env.lockState = .unlocked → env.monitorsRes = .ok (m0 :: rest) →
      env.captureRes = .ok () → env.saveRes = .ok () →
      native_capture_window_windows save_dir env =
        ⟨.done (.ok (pathJoin save_dir (screenshotFilename env.timestamp))), some m0⟩) := by
  refine ⟨rfl, ?_⟩
  intro m0 rest hl hm hc hsave
  simp [native_capture_window_windows, native_capture_fullscreen_windows, mutexLock,
    hl, hm, hc, hsave, generate_filename, screenshotFilename]

/-- C5 witness: `C5_window_falls_back_to_fullscreen` at a concrete one-monitor
environment. -/
theorem C5_window_falls_back_witness :
    native_capture_window_windows "/save" winEnvOk =
      ⟨.done (.ok (pathJoin "/save" (screenshotFilename winEnvOk.timestamp))), some ⟨0⟩⟩ :=
  (C5_window_falls_back_to_fullscreen "/save" winEnvOk).2 ⟨0⟩ [] rfl rfl rfl rfl

/-- C9: on Windows the interactive-capture entry point performs no
interactive selection — it is the same function as the fullscreen capture on
every save directory and environment, capturing the first monitor of the
monitor list and returning the timestamped destination path. -/
theorem C9_interactive_windows_is_fullscreen (save_dir : String) (env : WinEnv) :
    native_capture_interactive_windows save_dir env =
      native_capture_fullscreen_windows save_dir env ∧
    (∀ m0 rest, env.lockState = .unlocked → env.monitorsRes = .ok (m0 :: rest) →
      env.captureRes = .ok () → env.saveRes = .ok () →
      native_capture_interactive_windows save_dir env =
        ⟨.done (.ok (pathJoin save_dir (screenshotFilename env.timestamp))), some m0⟩) := by
  refine ⟨rfl, ?_⟩
  intro m0 rest hl hm hc hsave
  simp [native_capture_interactive_windows, mutexLock, hl, hm, hc, hsave,
    generate_filename, screenshotFilename]

/-- C9 witness: `C9_interactive_windows_is_fullscreen` at a concrete
one-monitor environment. -/
theorem C9_interactive_windows_witness :
    native_capture_interactive_windows "/save" winEnvOk =
      ⟨.done (.ok (pathJoin "/save" (screenshotFilename winEnvOk.timestamp))), some ⟨0⟩⟩ :=
  (C9_interactive_windows_is_fullscreen "/save" winEnvOk).2 ⟨0⟩ [] rfl rfl rfl rfl

/-- C6: the Windows clipboard copy rejects a nonexistent path (respectively a
non-regular-file path) with a descriptive error and without invoking the
PowerShell script; whenever the script is invoked, the path handed to it is
the canonicalized one; on macOS the osascript script is always invoked on the
raw path, and a nonexistent file surfaces as the native tool reporting non-zero
exit, whose stderr is wrapped into the returned error. -/
theorem C6_clipboard_validation (image_path : String) (env : WinClipEnv)
    (osascriptRun : Except String ProcOutput) :
    (env.exists_ = false →
      copy_image_to_clipboard_windows image_path env =
        ⟨.error ("File not found: " ++ image_path), none⟩) ∧
    (env.exists_ = true → env.isFile = false →
      copy_image_to_clipboard_windows image_path env =
        ⟨.error ("Path is not a file: " ++ image_path), none⟩) ∧
    (∀ q, (copy_image_to_clipboard_windows image_path env).invokedWith = some q →
      env.canonRes = .ok q) ∧
    (copy_image_to_clipboard_macos image_path osascriptRun).invokedWith =
      some image_path ∧
    (∀ o, osascriptRun = .ok o → o.success = false →
      copy_image_to_clipboard_macos image_path osascriptRun =
        ⟨.error ("Failed to copy image to clipboard: " ++ o.stderr),
          some image_path⟩) := by
  refine ⟨?_, ?_, ?_, ?_, ?_⟩
  · intro he
    simp [copy_image_to_clipboard_windows, he]
  · intro he hf
    simp [copy_image_to_clipboard_windows, he, hf]
  · intro q hq
    cases he : env.exists_ <;> cases hf : env.isFile <;>
      simp [copy_image_to_clipboard_windows, he, hf] at hq
    all_goals
      cases hcr : env.canonRes with
      | error e => simp [hcr] at hq
      | ok canonical_path =>
        cases hp : env.psRun with
        | error e =>
            simp [hcr, hp] at hq
            rw [hq]
        | ok o =>
            cases hs : o.success <;> simp [hcr, hp, hs] at hq <;> rw [hq]
  · cases osascriptRun with
    | error e => rfl
    | ok o => cases hs : o.success <;> simp [copy_image_to_clipboard_macos, hs]
  · intro o ho hs
    simp [copy_image_to_clipboard_macos, ho, hs]

/-- C6 witness: `C6_clipboard_validation` at a concrete nonexistent path on
Windows and an osascript run that failed on a missing file on macOS. -/
theorem C6_clipboard_validation_witness :
    copy_image_to_clipboard_windows "/save/missing.png"
        ⟨false, false, .error "no such file", .ok ⟨true, "", ""⟩⟩ =
      ⟨.error ("File not found: " ++ "/save/missing.png"), none⟩ ∧
    copy_image_to_clipboard_macos "/save/missing.png"
        (.ok ⟨false, "", "file /save/missing.png not found"⟩) =
      ⟨.error ("Failed to copy image to clipboard: " ++
          "file /save/missing.png not found"), some "/save/missing.png"⟩ :=
  ⟨(C6_clipboard_validation "/save/missing.png"
      ⟨false, false, .error "no such file", .ok ⟨true, "", ""⟩⟩
      (.ok ⟨false, "", "file /save/missing.png not found"⟩)).1 rfl,
    (C6_clipboard_validation "/save/missing.png"
      ⟨false, false, .error "no such file", .ok ⟨true, "", ""⟩⟩
      (.ok ⟨false, "", "file /save/missing.png not found"⟩)).2.2.2.2
      ⟨false, "", "file /save/missing.png not found"⟩ rfl rfl⟩

/-- C10: in `capture_once` with the clipboard flag set, when the screenshot
is saved into the save directory but the clipboard copy then fails, the call
returns the clipboard error, the saved screenshot file stays on disk at its
saved path, and the saved path is not returned as a success value. -/
theorem C10_clipboard_failure_keeps_file (clip : String → Except String Unit)
    (env : CaptureOnceEnv) (tmp saved e : String)
    (hp : env.primaryRes = .ok tmp) (hc : env.copyDirRes = .ok saved)
    (hclip : clip saved = .error e) :
    capture_once true clip env = (.error e, some saved) ∧
    (capture_once true clip env).1 ≠ .ok saved := by
  have h : capture_once true clip env = (.error e, some saved) := by
    simp [capture_once, hp, hc, hclip]
  refine ⟨h, ?_⟩
  rw [h]
  simp

/-- C10 witness: `C10_clipboard_failure_keeps_file` at a concrete capture
whose clipboard copy fails. -/
theorem C10_clipboard_failure_witness :
    capture_once true (fun _ => .error "clipboard copy failed")
        ⟨.ok "/tmp/shot.png", .ok "/save/shot.png"⟩ =
      (.error "clipboard copy failed", some "/save/shot.png") :=
  (C10_clipboard_failure_keeps_file (fun _ => .error "clipboard copy failed")
    ⟨.ok "/tmp/shot.png", .ok "/save/shot.png"⟩
    "/tmp/shot.png" "/save/shot.png" "clipboard copy failed" rfl rfl rfl).1

/-- C7: on macOS, in every lock-acquiring capture variant, when the
`pgrep -x screencapture` liveness check reports a running `screencapture`
process, the call fails with the "Another screenshot capture is already in
progress" error without spawning a new capture and without touching the
destination; and the Windows liveness stub always reports not running. -/
theorem C7_liveness_guard (save_dir : String) (env : MacEnv)
    (hl : env.lockState = .unlocked)
    (hr : is_screencapture_running env.pgrepRun = true) :
    native_capture_interactive_macos save_dir env =
      ⟨.done (.error "Another screenshot capture is already in progress"),
        false, env.destFileInitial⟩ ∧
    native_capture_fullscreen_macos save_dir env =
      ⟨.done (.error "Another screenshot capture is already in progress"),
        false, env.destFileInitial⟩ ∧
    native_capture_window_macos save_dir env =
      ⟨.done (.error "Another screenshot capture is already in progress"),
        false, env.destFileInitial⟩ ∧
    is_screencapture_running_windows = false := by
  refine ⟨?_, ?_, ?_, rfl⟩ <;>
    simp [native_capture_interactive_macos, native_capture_fullscreen_macos,
      native_capture_window_macos, mutexLock, hl, hr]

/-- C7 witness: `C7_liveness_guard` at a concrete environment whose `pgrep`
probe exits with success (a `screencapture` process exists). -/
theorem C7_liveness_guard_witness :
    native_capture_interactive_macos "/save"
        { macEnvOk with pgrepRun := .ok ⟨true, "12345", ""⟩ } =
      ⟨.done (.error "Another screenshot capture is already in progress"),
        false, false⟩ :=
  (C7_liveness_guard "/save" { macEnvOk with pgrepRun := .ok ⟨true, "12345", ""⟩ }
    rfl rfl).1

/-- C8: on macOS, in the interactive and window variants, when the capture
subprocess exits non-zero, any file at the destination path is removed before
the error is returned: the trace ends with no file at the destination, and
the outcome is the permission error or the cancellation error according to
the subprocess stderr. -/
theorem C8_failure_removes_file (save_dir : String) (env : MacEnv)
    (out : ProcOutput)
    (hl : env.lockState = .unlocked)
    (hr : is_screencapture_running env.pgrepRun = false)
    (hg : check_and_activate_permission env.probeRun = .ok ())
    (hsp : env.spawnRes = .ok ())
    (hw : env.waitRes = .ok out)
    (hf : out.success = false) :
    (native_capture_interactive_macos save_dir env).fileAtDest = false ∧
    (native_capture_interactive_macos save_dir env).outcome =
      .done (.error (if containsPermissionDenial out.stderr then
        permissionRequiredMsg else "Screenshot was cancelled or failed")) ∧
    (native_capture_window_macos save_dir env).fileAtDest = false ∧
    (native_capture_window_macos save_dir env).outcome =
      .done (.error (if containsPermissionDenial out.stderr then
        permissionRequiredMsg else "Screenshot was cancelled or failed")) := by
  cases hd : containsPermissionDenial out.stderr <;>
    simp [native_capture_interactive_macos, native_capture_window_macos,
      mutexLock, hl, hr, hg, hsp, hw, hf, hd, generate_filename]

/-- C8 witness: `C8_failure_removes_file` at a concrete cancelled capture
whose subprocess had written the destination file before failing. -/
theorem C8_failure_removes_file_witness :
    (native_capture_interactive_macos "/save"
        { macEnvOk with waitRes := .ok ⟨false, "", ""⟩ }).fileAtDest = false ∧
    (native_capture_interactive_macos "/save"
        { macEnvOk with waitRes := .ok ⟨false, "", ""⟩ }).outcome =
      .done (.error (if containsPermissionDenial (ProcOutput.mk false "" "").stderr
        then permissionRequiredMsg else "Screenshot was cancelled or failed")) :=
  ⟨(C8_failure_removes_file "/save" { macEnvOk with waitRes := .ok ⟨false, "", ""⟩ }
      ⟨false, "", ""⟩ rfl rfl rfl rfl rfl rfl).1,
    (C8_failure_removes_file "/save" { macEnvOk with waitRes := .ok ⟨false, "", ""⟩ }
      ⟨false, "", ""⟩ rfl rfl rfl rfl rfl rfl).2.1⟩

/-- C1 counterexample: with a capture already in flight in the same process
(the capture mutex held by another task), a second interactive capture does
NOT fail fast with the "capture already in progress" error — `Mutex::lock`
makes it block until the first capture releases the lock, so its outcome is
`blocked`, not that error. -/
theorem C1_counterexample :
    (native_capture_interactive_macos "/save"
        { macEnvOk with lockState := .lockedByOther }).outcome = .blocked ∧
    (native_capture_interactive_macos "/save"
        { macEnvOk with lockState := .lockedByOther }).outcome ≠
      .done (.error "Another screenshot capture is already in progress") := by
  constructor
  · rfl
  · decide

/-- C1 amended: a second capture requested while one is in flight in the same
process blocks on the process-wide mutex until the first completes — it is
serialized, never failed fast, and while blocked nothing is spawned and the
destination is untouched (so the output of the first capture is never silently
overwritten); the "Another screenshot capture is already in progress"
fail-fast error arises only from the macOS OS-level liveness check, when a
`screencapture` process is already running. -/
theorem C1_amended (save_dir : String) (env : MacEnv) :
    (env.lockState = .lockedByOther →
      native_capture_interactive_macos save_dir env =
        ⟨.blocked, false, env.destFileInitial⟩ ∧
      native_capture_fullscreen_macos save_dir env =
        ⟨.blocked, false, env.destFileInitial⟩ ∧
      native_capture_window_macos save_dir env =
        ⟨.blocked, false, env.destFileInitial⟩) ∧
    (env.lockState = .unlocked → is_screencapture_running env.pgrepRun = true →
      (native_capture_interactive_macos save_dir env).outcome =
        .done (.error "Another screenshot capture is already in progress")) := by
  constructor
  · intro hl
    refine ⟨?_, ?_, ?_⟩ <;>
      simp [native_capture_interactive_macos, native_capture_fullscreen_macos,
        native_capture_window_macos, mutexLock, hl]
  · intro hl hr
    simp [native_capture_interactive_macos, mutexLock, hl, hr]

/-- C1 amended witness: `C1_amended` applied at a concrete held-lock
environment (second capture blocks) and at a concrete free-lock environment
whose liveness probe finds a running `screencapture` (fail-fast error). -/
theorem C1_amended_witness :
    native_capture_interactive_macos "/save"
        { macEnvOk with lockState := .lockedByOther } =
      ⟨.blocked, false, false⟩ ∧
    (native_capture_interactive_macos "/save"
        { macEnvOk with pgrepRun := .ok ⟨true, "777", ""⟩ }).outcome =
      .done (.error "Another screenshot capture is already in progress") :=
  ⟨((C1_amended "/save" { macEnvOk with lockState := .lockedByOther }).1 rfl).1,
    (C1_amended "/save" { macEnvOk with pgrepRun := .ok ⟨true, "777", ""⟩ }).2 rfl rfl⟩

/-- Any successful interactive macOS capture found the destination file in
place and returned exactly the timestamped path inside the save directory. -/
lemma interactive_ok_requires_file (save_dir : String) (env : MacEnv) (p : String)
    (hp : (native_capture_interactive_macos save_dir env).outcome = .done (.ok p)) :
    env.destFileAfterRun = true ∧
    p = pathJoin save_dir (screenshotFilename env.timestamp) := by
  cases hl : env.lockState with
  | lockedByOther => simp [native_capture_interactive_macos, mutexLock, hl] at hp
  | poisoned m => simp [native_capture_interactive_macos, mutexLock, hl] at hp
  | unlocked =>
    cases hr : is_screencapture_running env.pgrepRun with
    | true => simp [native_capture_interactive_macos, mutexLock, hl, hr] at hp
    | false =>
      cases hg : check_and_activate_permission env.probeRun with
      | error e =>
          simp [native_capture_interactive_macos, mutexLock, hl, hr, hg] at hp
      | ok u =>
        cases u
        cases hsp : env.spawnRes with
        | error e =>
            simp [native_capture_interactive_macos, mutexLock, hl, hr, hg, hsp,
              generate_filename] at hp
        | ok u2 =>
          cases u2
          cases hw : env.waitRes with
          | error e =>
              simp [native_capture_interactive_macos, mutexLock, hl, hr, hg, hsp,
                hw, generate_filename] at hp
          | ok out =>
            cases hs : out.success with
            | false =>
                cases hd : containsPermissionDenial out.stderr <;>
                  simp [native_capture_interactive_macos, mutexLock, hl, hr, hg,
                    hsp, hw, hs, hd, generate_filename] at hp
            | true =>
              cases hf : env.destFileAfterRun with
              | false =>
                  simp [native_capture_interactive_macos, mutexLock, hl, hr, hg,
                    hsp, hw, hs, hf, generate_filename] at hp
              | true =>
                  simp [native_capture_interactive_macos, mutexLock, hl, hr, hg,
                    hsp, hw, hs, hf, generate_filename, screenshotFilename,
                    pathJoin] at hp
                  exact ⟨rfl, hp.symm⟩

/-- Any successful window macOS capture found the destination file in place
and returned exactly the timestamped path inside the save directory. -/
lemma window_ok_requires_file (save_dir : String) (env : MacEnv) (p : String)
    (hp : (native_capture_window_macos save_dir env).outcome = .done (.ok p)) :
    env.destFileAfterRun = true ∧
    p = pathJoin save_dir (screenshotFilename env.timestamp) := by
  cases hl : env.lockState with
  | lockedByOther => simp [native_capture_window_macos, mutexLock, hl] at hp
  | poisoned m => simp [native_capture_window_macos, mutexLock, hl] at hp
  | unlocked =>
    cases hr : is_screencapture_running env.pgrepRun with
    | true => simp [native_capture_window_macos, mutexLock, hl, hr] at hp
    | false =>
      cases hg : check_and_activate_permission env.probeRun with
      | error e =>
          simp [native_capture_window_macos, mutexLock, hl, hr, hg] at hp
      | ok u =>
        cases u
        cases hsp : env.spawnRes with
        | error e =>
            simp [native_capture_window_macos, mutexLock, hl, hr, hg, hsp,
              generate_filename] at hp
        | ok u2 =>
          cases u2
          cases hw : env.waitRes with
          | error e =>
              simp [native_capture_window_macos, mutexLock, hl, hr, hg, hsp,
                hw, generate_filename] at hp
          | ok out =>
            cases hs : out.success with
            | false =>
                cases hd : containsPermissionDenial out.stderr <;>
                  simp [native_capture_window_macos, mutexLock, hl, hr, hg,
                    hsp, hw, hs, hd, generate_filename] at hp
            | true =>
              cases hf : env.destFileAfterRun with
              | false =>
                  simp [native_capture_window_macos, mutexLock, hl, hr, hg,
                    hsp, hw, hs, hf, generate_filename] at hp
              | true =>
                  simp [native_capture_window_macos, mutexLock, hl, hr, hg,
                    hsp, hw, hs, hf, generate_filename, screenshotFilename,
                    pathJoin] at hp
                  exact ⟨rfl, hp.symm⟩

/-- Any successful fullscreen macOS capture found the destination file in
place and returned exactly the timestamped path inside the save directory. -/
lemma fullscreen_ok_requires_file (save_dir : String) (env : MacEnv) (p : String)
    (hp : (native_capture_fullscreen_macos save_dir env).outcome = .done (.ok p)) :
    env.destFileAfterRun = true ∧
    p = pathJoin save_dir (screenshotFilename env.timestamp) := by
  cases hl : env.lockState with
  | lockedByOther => simp [native_capture_fullscreen_macos, mutexLock, hl] at hp
  | poisoned m => simp [native_capture_fullscreen_macos, mutexLock, hl] at hp
  | unlocked =>
    cases hr : is_screencapture_running env.pgrepRun with
    | true => simp [native_capture_fullscreen_macos, mutexLock, hl, hr] at hp
    | false =>
      cases hg : check_and_activate_permission env.probeRun with
      | error e =>
          simp [native_capture_fullscreen_macos, mutexLock, hl, hr, hg] at hp
      | ok u =>
        cases u
        cases hst : env.statusRes with
        | error e =>
            simp [native_capture_fullscreen_macos, mutexLock, hl, hr, hg, hst,
              generate_filename] at hp
        | ok st =>
          cases st with
          | false =>
              simp [native_capture_fullscreen_macos, mutexLock, hl, hr, hg, hst,
                generate_filename] at hp
          | true =>
            cases hf : env.destFileAfterRun with
            | false =>
                simp [native_capture_fullscreen_macos, mutexLock, hl, hr, hg,
                  hst, hf, generate_filename] at hp
            | true =>
                simp [native_capture_fullscreen_macos, mutexLock, hl, hr, hg,
                  hst, hf, generate_filename, screenshotFilename, pathJoin] at hp
                exact ⟨rfl, hp.symm⟩

/-- C3 counterexample: in the fullscreen macOS variant, two different failure
conditions produce the SAME error string — a capture whose subprocess exits
non-zero and a capture whose subprocess reports success but leaves no output
file both return "Screenshot failed" — so the four failure conditions do not
map to four distinct error strings. -/
theorem C3_counterexample :
    (native_capture_fullscreen_macos "/save"
        { macEnvOk with statusRes := .ok false }).outcome =
      .done (.error "Screenshot failed") ∧
    (native_capture_fullscreen_macos "/save"
        { macEnvOk with destFileAfterRun := false }).outcome =
      .done (.error "Screenshot failed") :=
  ⟨rfl, rfl⟩

/-- C3 amended: every macOS capture variant returns a success path only if
the destination file (the timestamped filename joined onto the given save
directory) exists after the capture, and subprocess spawn failure and
permission denial via the gate keep their own distinct error strings — but
non-zero exit status and a missing output file after a reported success map
to one shared error string per variant ("Screenshot was cancelled or failed"
for interactive and window, "Screenshot failed" for fullscreen). -/
theorem C3_amended (save_dir : String) (env : MacEnv) :
    (∀ p, (native_capture_interactive_macos save_dir env).outcome = .done (.ok p) →
      env.destFileAfterRun = true ∧
      p = pathJoin save_dir (screenshotFilename env.timestamp)) ∧
    (∀ p, (native_capture_window_macos save_dir env).outcome = .done (.ok p) →
      env.destFileAfterRun = true ∧
      p = pathJoin save_dir (screenshotFilename env.timestamp)) ∧
    (∀ p, (native_capture_fullscreen_macos save_dir env).outcome = .done (.ok p) →
      env.destFileAfterRun = true ∧
      p = pathJoin save_dir (screenshotFilename env.timestamp)) ∧
    (∀ e, env.lockState = .unlocked → is_screencapture_running env.pgrepRun = false →
      check_and_activate_permission env.probeRun = .error e →
      (native_capture_interactive_macos save_dir env).outcome =
        .done (.error (permissionGateMsg e)) ∧
      (native_capture_window_macos save_dir env).outcome =
        .done (.error (permissionGateMsg e)) ∧
      (native_capture_fullscreen_macos save_dir env).outcome =
        .done (.error (permissionGateMsg e))) ∧
    (env.lockState = .unlocked → is_screencapture_running env.pgrepRun = false →
      check_and_activate_permission env.probeRun = .ok () →
      (∀ e, env.spawnRes = .error e →
        (native_capture_interactive_macos save_dir env).outcome =
          .done (.error ("Failed to run screencapture: " ++ e)) ∧
        (native_capture_window_macos save_dir env).outcome =
          .done (.error ("Failed to run screencapture: " ++ e))) ∧
      (∀ e, env.statusRes = .error e →
        (native_capture_fullscreen_macos save_dir env).outcome =
          .done (.error ("Failed to run screencapture: " ++ e))) ∧
      (env.statusRes = .ok false →
        (native_capture_fullscreen_macos save_dir env).outcome =
          .done (.error "Screenshot failed")) ∧
      (env.statusRes = .ok true → env.destFileAfterRun = false →
        (native_capture_fullscreen_macos save_dir env).outcome =
          .done (.error "Screenshot failed")) ∧
      (∀ out, env.spawnRes = .ok () → env.waitRes = .ok out →
        out.success = false → containsPermissionDenial out.stderr = false →
        (native_capture_interactive_macos save_dir env).outcome =
          .done (.error "Screenshot was cancelled or failed") ∧
        (native_capture_window_macos save_dir env).outcome =
          .done (.error "Screenshot was cancelled or failed")) ∧
      (∀ out, env.spawnRes = .ok () → env.waitRes = .ok out →
        out.success = true → env.destFileAfterRun = false →
        (native_capture_interactive_macos save_dir env).outcome =
          .done (.error "Screenshot was cancelled or failed") ∧
        (native_capture_window_macos save_dir env).outcome =
          .done (.error "Screenshot was cancelled or failed"))) := by
  refine ⟨fun p hp => interactive_ok_requires_file save_dir env p hp,
    fun p hp => window_ok_requires_file save_dir env p hp,
    fun p hp => fullscreen_ok_requires_file save_dir env p hp, ?_, ?_⟩
  · intro e hl hr hg
    refine ⟨?_, ?_, ?_⟩ <;>
      simp [native_capture_interactive_macos, native_capture_window_macos,
        native_capture_fullscreen_macos, mutexLock, hl, hr, hg]
  · intro hl hr hg
    refine ⟨?_, ?_, ?_, ?_, ?_, ?_⟩
    · intro e hsp
      constructor <;>
        simp [native_capture_interactive_macos, native_capture_window_macos,
          mutexLock, hl, hr, hg, hsp, generate_filename]
    · intro e hst
      simp [native_capture_fullscreen_macos, mutexLock, hl, hr, hg, hst,
        generate_filename]
    · intro hst
      simp [native_capture_fullscreen_macos, mutexLock, hl, hr, hg, hst,
        generate_filename]
    · intro hst hf
      simp [native_capture_fullscreen_macos, mutexLock, hl, hr, hg, hst, hf,
        generate_filename]
    · intro out hsp hw hs hd
      constructor <;>
        simp [native_capture_interactive_macos, native_capture_window_macos,
          mutexLock, hl, hr, hg, hsp, hw, hs, hd, generate_filename]
    · intro out hsp hw hs hf
      constructor <;>
        simp [native_capture_interactive_macos, native_capture_window_macos,
          mutexLock, hl, hr, hg, hsp, hw, hs, hf, generate_filename]

/-- C3 amended witness: `C3_amended` at a concrete environment whose
fullscreen subprocess exited non-zero. -/
theorem C3_amended_witness :
    (native_capture_fullscreen_macos "/save"
        { macEnvOk with statusRes := .ok false }).outcome =
      .done (.error "Screenshot failed") :=
  ((C3_amended "/save" { macEnvOk with statusRes := .ok false }).2.2.2.2
    rfl rfl rfl).2.2.1 rfl

end BetterShot
